import Mathlib

/-!
Shallow embedding of the terrain-analysis and constrained-placement engine of
`src/src/App.js` (`pointInPolygon`, `BoundaryUtils`, `DEMUtils`,
`getBoundaryApproximateSize`, `onMapClick`, `onElementDrag`, `autoDesignLayout`).

Modelling conventions:

* JS numbers are modelled as exact rationals (`ℚ`).  The JS value `NaN` is
  modelled as `none : Option ℚ` at the one place the engine produces it
  (`DEMUtils.generateDEM` with a boundary whose bounding box has zero
  longitude extent, where the eastward-gradient term computes `0/0 = NaN`,
  and `NaN` then propagates through `+`, `Math.max` and `toFixed`).
* Host math-library functions (`Math.sin`, `Math.cos`, `Math.sqrt`,
  `Math.atan2`, `Math.PI`, `Math.random`) return implementation-approximated
  doubles.  Doubles are rationals, so these are modelled as oracle parameters
  (`ℚ → ℚ`, …).  Theorems quantify over the oracles and assume only the
  mathematically guaranteed facts (ranges) stated as hypotheses.
* `parseFloat(x.toFixed(1))` is modelled by `jsToFixed1`: round half-up to one
  decimal, which is what ECMA-262 `toFixed` specifies on exact values
  ("if there are two such n, pick the larger n").
* JS `Array.prototype.sort` is stable in modern engines; it is modelled by a
  stable insertion sort with the source's comparators.
* JS object identity (`p !== point` in `calculateTopography`, and the
  stringified visited-set keys in `calculateWaterFlow`) is modelled by list
  index respectively by exact coordinate pairs.
-/

/- The Batteries implementations of `Rat.add`, `Rat.mul`, `Rat.inv`,
`Rat.sub` and `Rat.ofScientific` are `@[irreducible]`, which blocks `decide`
on concrete rational computations; restore default reducibility for this
file's concrete evaluations. -/
attribute [local semireducible] Rat.add Rat.mul Rat.inv Rat.sub Rat.ofScientific

/-- JS `Number.EPSILON`, added to the denominator in `pointInPolygon`. -/
def jsEpsilon : ℚ := 1 / 2 ^ 52

/-- Executable floor on `ℚ` (agrees with `Int.floor`, see `ratFloor_eq`). -/
def ratFloor (q : ℚ) : ℤ := Int.ediv q.num q.den

/-- Executable ceiling on `ℚ` (agrees with `Int.ceil`, see `ratCeil_eq`). -/
def ratCeil (q : ℚ) : ℤ := -(ratFloor (-q))

/-- Model of JS `parseFloat(x.toFixed(1))`: round to one decimal, half up. -/
def jsToFixed1 (q : ℚ) : ℚ := ((ratFloor (q * 10 + 1 / 2) : ℤ) : ℚ) / 10

/-- Is this (possibly-NaN) JS number a number that is at least `c`?
(`NaN >= c` is false in JS.) -/
def isNumGe (o : Option ℚ) (c : ℚ) : Bool :=
  match o with
  | some q => decide (c ≤ q)
  | none => false

/-- Insert `x` into an already-sorted list, passing only elements that are
strictly smaller according to the boolean preorder `le` (this makes the
resulting sort stable, like JS `Array.prototype.sort`). -/
def insertSorted {α : Type} (le : α → α → Bool) (x : α) : List α → List α
  | [] => [x]
  | y :: ys => if le y x && !le x y then y :: insertSorted le x ys else x :: y :: ys

/-- Stable sort (models JS `Array.prototype.sort` with a total comparator). -/
def stableSort {α : Type} (le : α → α → Bool) (l : List α) : List α :=
  l.foldr (insertSorted le) []

/-- One ray-casting edge pair `(vs[i], vs[j])` per vertex, where `j` starts at
the last index and then trails `i` by one, exactly as in the source loop
`for (let i = 0, j = vs.length - 1; i < vs.length; j = i++)`. -/
def ringPairs (vs : List (ℚ × ℚ)) : List ((ℚ × ℚ) × (ℚ × ℚ)) :=
  match vs.getLast? with
  | none => []
  | some l => vs.zip (l :: vs.dropLast)

/-- Ray-casting point-in-polygon test from the source helper `pointInPolygon`.
`x`, `y` are the query point; `vs` are the polygon vertices, both in the
caller's `[lng, lat]` convention.  A `Number.EPSILON` is added to the edge
denominator exactly as in the source. -/
def pointInPolygon (x y : ℚ) (vs : List (ℚ × ℚ)) : Bool :=
  (ringPairs vs).foldl
    (fun inside vv =>
      let xi := vv.1.1
      let yi := vv.1.2
      let xj := vv.2.1
      let yj := vv.2.2
      if (decide (yi > y) != decide (yj > y))
          && decide (x < (xj - xi) * (y - yi) / (yj - yi + jsEpsilon) + xi) then
        !inside
      else inside)
    false

/-- Axis-aligned bounding box of a vertex ring. -/
structure BBox where
  minLng : ℚ
  maxLng : ℚ
  minLat : ℚ
  maxLat : ℚ
deriving DecidableEq

/-- Bounding box of a (lng, lat) vertex ring, folded exactly like the source's
`coords.forEach` min/max scans (the source starts from `±Infinity`; for a
nonempty ring that equals folding from the first vertex; the engine never
takes a bounding box of an empty ring). -/
def bboxOf (ring : List (ℚ × ℚ)) : BBox :=
  match ring with
  | [] => ⟨0, 0, 0, 0⟩
  | c :: cs =>
    cs.foldl
      (fun bb v =>
        ⟨min bb.minLng v.1, max bb.maxLng v.1, min bb.minLat v.2, max bb.maxLat v.2⟩)
      ⟨c.1, c.1, c.2, c.2⟩

/-- Longitude extent of a ring's bounding box (the `lngRange` of
`DEMUtils.generateDEM`). -/
def bboxLngRange (ring : List (ℚ × ℚ)) : ℚ := (bboxOf ring).maxLng - (bboxOf ring).minLng

/-- Latitude extent of a ring's bounding box (the `latRange` of
`DEMUtils.generateDEM`). -/
def bboxLatRange (ring : List (ℚ × ℚ)) : ℚ := (bboxOf ring).maxLat - (bboxOf ring).minLat

/-- The `[lat, lng]` midpoint of a ring's bounding box, the fallback of
`BoundaryUtils.generateRandomPointInBoundary`. -/
def bboxMidpoint (ring : List (ℚ × ℚ)) : ℚ × ℚ :=
  let bb := bboxOf ring
  (bb.minLat + (bb.maxLat - bb.minLat) / 2, bb.minLng + (bb.maxLng - bb.minLng) / 2)

/-- A JS value passed as the `point` argument of
`BoundaryUtils.isPointInBoundary`: either an array `[a, b]` or an object with
`.lat`/`.lng` fields (the source duck-types on `Array.isArray`). -/
inductive JsPoint where
  | arr (a b : ℚ)
  | obj (lat lng : ℚ)

/-- A JS value passed as the `boundary` argument of the `BoundaryUtils`
functions: a GeoJSON Feature whose outer ring is in `(lng, lat)` order, a
plain coordinate array (which has no `.geometry` field), or a missing value.
The source guards on `boundary && boundary.geometry && boundary.geometry.coordinates`. -/
inductive JsBoundary where
  | geo (ring : List (ℚ × ℚ))
  | raw (coords : List (ℚ × ℚ))
  | missing

/-- `BoundaryUtils.isPointInBoundary`.  For a non-GeoJSON argument (a plain
array, or nothing) the `!boundary.geometry` guard fires and the function
returns `true`.  For an array point `[a, b]` the source reads
`[lng, lat] = [point[1], point[0]]`. -/
def isPointInBoundary (p : JsPoint) (b : JsBoundary) : Bool :=
  match b with
  | .geo ring =>
    let ll : ℚ × ℚ :=
      match p with
      | .arr a b => (b, a)
      | .obj lat lng => (lng, lat)
    pointInPolygon ll.1 ll.2 ring
  | _ => true

/-- Inner rejection-sampling loop of
`BoundaryUtils.generateRandomPointInBoundary`.  `rho k` is the pair of
`Math.random()` draws of attempt `k` (lng first, then lat, as in the source);
the fuel counts the remaining containment tests (the source allows 1000). -/
def grpibGo (rho : ℕ → ℚ × ℚ) (ring : List (ℚ × ℚ)) (bb : BBox) :
    ℕ → ℕ → ℚ × ℚ
  | _, 0 => bboxMidpoint ring
  | k, n + 1 =>
    let r := rho k
    let lng := bb.minLng + r.1 * (bb.maxLng - bb.minLng)
    let lat := bb.minLat + r.2 * (bb.maxLat - bb.minLat)
    if pointInPolygon lng lat ring then (lat, lng) else grpibGo rho ring bb (k + 1) n

/-- `BoundaryUtils.generateRandomPointInBoundary` for a present, valid
boundary ring: rejection-sample in the bounding box until `pointInPolygon`
succeeds, falling back to the bounding-box midpoint after 1000 attempts.
Returns `[lat, lng]`. -/
def generateRandomPointInBoundary (rho : ℕ → ℚ × ℚ) (ring : List (ℚ × ℚ)) : ℚ × ℚ :=
  grpibGo rho ring (bboxOf ring) 0 1000

/-- `BoundaryUtils.findClosestPointOnSegment` (all in `(lng, lat)` = `(x, y)`
coordinates). -/
def findClosestPointOnSegment (px py x1 y1 x2 y2 : ℚ) : ℚ × ℚ :=
  let a := px - x1
  let b := py - y1
  let c := x2 - x1
  let d := y2 - y1
  let dot := a * c + b * d
  let lenSq := c * c + d * d
  let param := if lenSq ≠ 0 then dot / lenSq else -1
  if param < 0 then (x1, y1)
  else if param > 1 then (x2, y2)
  else (x1 + param * c, y1 + param * d)

/-- `BoundaryUtils.findClosestPointOnBoundary` for a `[lat, lng]` array point
and a valid ring.  `sqrtq` models `Math.sqrt` (used only inside distance
comparisons).  The running minimum starts at `Infinity`, modelled as `none`. -/
def findClosestPointOnBoundary (sqrtq : ℚ → ℚ) (point : ℚ × ℚ)
    (ring : List (ℚ × ℚ)) : ℚ × ℚ :=
  let lng := point.2
  let lat := point.1
  let segs := ring.zip (ring.drop 1)
  (segs.foldl
    (fun acc seg =>
      let c := findClosestPointOnSegment lng lat seg.1.1 seg.1.2 seg.2.1 seg.2.2
      let d := sqrtq ((c.1 - lng) * (c.1 - lng) + (c.2 - lat) * (c.2 - lat))
      match acc.1 with
      | none => (some d, (c.2, c.1))
      | some m => if d < m then (some d, (c.2, c.1)) else acc)
    ((none : Option ℚ), (lat, lng))).2

/-- `getBoundaryApproximateSize` on a valid polygon Feature with outer ring
`ring`; returns `(width, height)`.  Degenerate axes are widened to `0.0001`;
rings with fewer than 3 vertices get the `0.01` default. -/
def getBoundaryApproximateSize (ring : List (ℚ × ℚ)) : ℚ × ℚ :=
  if ring.length < 3 then (1 / 100, 1 / 100)
  else
    let bb := bboxOf ring
    let width := bb.maxLng - bb.minLng
    let height := bb.maxLat - bb.minLat
    (if width > 0 then width else 1 / 10000, if height > 0 then height else 1 / 10000)

/-- Oracle bundle for the JS host math library (see the file comment). -/
structure HostMath where
  sinq : ℚ → ℚ
  cosq : ℚ → ℚ
  sqrtq : ℚ → ℚ
  atan2q : ℚ → ℚ → ℚ
  qpi : ℚ

/-- An elevation sample as produced by `DEMUtils.generateDEM`.  The elevation
is `none` when the JS computation yields `NaN`. -/
structure DemSample where
  lat : ℚ
  lng : ℚ
  elevation : Option ℚ
deriving DecidableEq

/-- Grid resolution of the with-boundary branch of `DEMUtils.generateDEM`:
`points = Math.max(15, Math.floor(latRange * 2000))`. -/
def demGridPoints (ring : List (ℚ × ℚ)) : ℕ :=
  max 15 (ratFloor (bboxLatRange ring * 2000)).toNat

/-- With-boundary branch of `DEMUtils.generateDEM`: a `(points+1)²` grid over
the ring's bounding box.  `rnd` models the `Math.random()` jitter draw of each
grid cell.  When the bounding box has zero longitude extent the eastward
gradient term `(pointLng - minLng) / lngRange * 8` is `0/0 = NaN` in JS and
the whole elevation is `NaN` (`none`); the unused `distanceFromCenter`
computation of the source is omitted.  The `Math.max(2, …)` floor and
`parseFloat(elevation.toFixed(1))` are applied as in the source. -/
def generateDEMBoundary (M : HostMath) (rnd : ℕ → ℚ) (ring : List (ℚ × ℚ)) :
    List DemSample :=
  let bb := bboxOf ring
  let latRange := bb.maxLat - bb.minLat
  let lngRange := bb.maxLng - bb.minLng
  let pts := demGridPoints ring
  (List.range (pts + 1)).flatMap fun (i : ℕ) =>
    (List.range (pts + 1)).map fun (j : ℕ) =>
      let pointLat := bb.minLat + ((i : ℚ) / (pts : ℚ)) * latRange
      let pointLng := bb.minLng + ((j : ℚ) / (pts : ℚ)) * lngRange
      let base := 5 + M.sinq (pointLat * 50) * 3 + M.cosq (pointLng * 50) * 2
      let idx : ℕ := i * (pts + 1) + j
      let elev : Option ℚ :=
        if lngRange = 0 then none
        else
          some (jsToFixed1 (max 2 (base + (pointLng - bb.minLng) / lngRange * 8
            + (rnd idx - 1 / 2) * 2)))
      ⟨pointLat, pointLng, elev⟩

/-- No-boundary branch of `DEMUtils.generateDEM`: a fixed 31×31 grid centered
on the anchor (`points = 15`, indices `-15 … 15`), elevation
`10 + i*0.3 + sin(lat*50)*2 + Math.random()*0.5` with no `Math.max` floor. -/
def generateDEMNoBoundary (M : HostMath) (rnd : ℕ → ℚ) (lat lng radius : ℚ) :
    List DemSample :=
  let step := radius / 15
  (List.range 31).flatMap fun (a : ℕ) =>
    (List.range 31).map fun (b : ℕ) =>
      let i : ℤ := (a : ℤ) - 15
      let j : ℤ := (b : ℤ) - 15
      let pointLat := lat + (i : ℚ) * step
      let pointLng := lng + (j : ℚ) * step
      let idx : ℕ := a * 31 + b
      let elevation :=
        jsToFixed1 (10 + (i : ℚ) * (3 / 10) + M.sinq (pointLat * 50) * 2
          + rnd idx * (1 / 2))
      ⟨pointLat, pointLng, some elevation⟩

/-- An elevation sample as consumed by the analyzers (`calculateTopography`,
`generateContours`): a plain record with numeric elevation. -/
structure Sample where
  lat : ℚ
  lng : ℚ
  elevation : ℚ
deriving DecidableEq

/-- A sample augmented with slope and aspect, as produced by
`DEMUtils.calculateTopography`. -/
structure TopoSample where
  lat : ℚ
  lng : ℚ
  elevation : ℚ
  slope : ℚ
  aspect : ℚ
deriving DecidableEq, Inhabited

/-- The comparator `(a, b) => a.lat - b.lat || a.lng - b.lng` of
`calculateTopography`, as a boolean total preorder. -/
def topoSortLE (a b : Sample) : Bool :=
  decide (a.lat < b.lat) || (decide (a.lat = b.lat) && decide (a.lng ≤ b.lng))

/-- The aspect computation of `calculateTopography`: when both an eastward
and a northward neighbor exist, the steepest-descent bearing
`Math.atan2(dz_dy, dz_dx)` in degrees, normalized by adding 360 when
negative; 0 otherwise. -/
def aspectRaw (atan2q : ℚ → ℚ → ℚ) (pelev : ℚ) (east north : Option Sample) : ℚ :=
  match east, north with
  | some e, some n =>
    let dzdx := e.elevation - pelev
    let dzdy := n.elevation - pelev
    let a := atan2q dzdy dzdx
    if a < 0 then a + 360 else a
  | _, _ => 0

/-- `DEMUtils.calculateTopography`.  `atan2q y x` models
`Math.atan2(y, x) * 180 / Math.PI`.  The source's reference inequality
`p !== point` is modelled by comparing list indices in the sorted copy. -/
def calculateTopography (atan2q : ℚ → ℚ → ℚ) (demData : List Sample) :
    List TopoSample :=
  let sortedData := stableSort topoSortLE demData
  sortedData.enum.filterMap fun (ip : ℕ × Sample) =>
    let i := ip.1
    let point := ip.2
    let neighbors :=
      (sortedData.enum.filter fun (jp : ℕ × Sample) =>
        decide (jp.1 ≠ i) && decide (|jp.2.lat - point.lat| < 3 / 1000)
          && decide (|jp.2.lng - point.lng| < 3 / 1000)).map Prod.snd
    if neighbors.length ≥ 3 then
      let avgElevation := (neighbors.map Sample.elevation).sum / (neighbors.length : ℚ)
      let slope := |point.elevation - avgElevation| * 100
      let eastNeighbor := neighbors.find? fun p =>
        decide (p.lng > point.lng) && decide (|p.lat - point.lat| < 1 / 1000)
      let northNeighbor := neighbors.find? fun p =>
        decide (p.lat > point.lat) && decide (|p.lng - point.lng| < 1 / 1000)
      let aspect := aspectRaw atan2q point.elevation eastNeighbor northNeighbor
      some ⟨point.lat, point.lng, point.elevation, jsToFixed1 slope, jsToFixed1 aspect⟩
    else none

/-- `DEMUtils.findHighPoints`: sort by elevation descending (stable), take
`count`. -/
def findHighPoints (topography : List TopoSample) (count : ℕ) : List TopoSample :=
  (stableSort (fun a b => decide (b.elevation ≤ a.elevation)) topography).take count

/-- `DEMUtils.findLowPoints`: sort by elevation ascending (stable), take
`count`. -/
def findLowPoints (topography : List TopoSample) (count : ℕ) : List TopoSample :=
  (stableSort (fun a b => decide (a.elevation ≤ b.elevation)) topography).take count

/-- `BoundaryUtils.filterPointsInBoundary` on topography samples (records with
`.lat`/`.lng` fields); for a non-GeoJSON boundary argument the guard returns
the input unchanged. -/
def filterPointsInBoundary (pts : List TopoSample) (b : JsBoundary) : List TopoSample :=
  match b with
  | .geo ring => pts.filter fun p => pointInPolygon p.lng p.lat ring
  | _ => pts

/-- The unvisited, strictly-lower neighbors within the `0.002°` window, from
the flow loop of `DEMUtils.calculateWaterFlow`.  The JS visited set stores
stringified coordinates; it is modelled as a list of coordinate pairs. -/
def flowNeighbors (topography : List TopoSample) (processed : List (ℚ × ℚ))
    (cur : TopoSample) : List TopoSample :=
  topography.filter fun p =>
    !processed.contains (p.lat, p.lng) && decide (|p.lat - cur.lat| < 2 / 1000)
      && decide (|p.lng - cur.lng| < 2 / 1000) && decide (p.elevation < cur.elevation)

/-- The `neighbors.reduce` of `calculateWaterFlow`: pick the neighbor with the
largest elevation drop, starting the fold from `neighbors[0]`. -/
def steepestPick (cur : TopoSample) (first : TopoSample) (l : List TopoSample) :
    TopoSample :=
  l.foldl
    (fun steepest p =>
      if cur.elevation - p.elevation > cur.elevation - steepest.elevation then p
      else steepest)
    first

/-- The downhill walk of `calculateWaterFlow` (up to 20 steps): returns the
path after the current point together with the updated visited set. -/
def flowWalk (topography : List TopoSample) :
    ℕ → TopoSample → List (ℚ × ℚ) → List TopoSample × List (ℚ × ℚ)
  | 0, _, processed => ([], processed)
  | fuel + 1, cur, processed =>
    match flowNeighbors topography processed cur with
    | [] => ([], processed)
    | nh :: nt =>
      let next := steepestPick cur nh (nh :: nt)
      let rest := flowWalk topography fuel next ((next.lat, next.lng) :: processed)
      (next :: rest.1, rest.2)

/-- One iteration of the `highPoints.forEach` loop of
`DEMUtils.calculateWaterFlow`: skip already-visited seeds, otherwise walk
downhill and keep the path if it has more than 3 points. -/
def flowSeed (topography : List TopoSample)
    (acc : List (List TopoSample) × List (ℚ × ℚ)) (startPoint : TopoSample) :
    List (List TopoSample) × List (ℚ × ℚ) :=
  if acc.2.contains (startPoint.lat, startPoint.lng) then acc
  else
    let w := flowWalk topography 20 startPoint ((startPoint.lat, startPoint.lng) :: acc.2)
    let path := startPoint :: w.1
    (if path.length > 3 then acc.1 ++ [path] else acc.1, w.2)

/-- `DEMUtils.calculateWaterFlow`: greedy downhill paths seeded from the top
10 high points, sharing one global visited set; paths of length ≤ 3 are
discarded. -/
def calculateWaterFlow (topography : List TopoSample) : List (List TopoSample) :=
  let highPoints := findHighPoints topography 10
  (highPoints.foldl (flowSeed topography)
    (([] : List (List TopoSample)), ([] : List (ℚ × ℚ)))).1

/-- A contour as produced by `DEMUtils.generateContours`. -/
structure Contour where
  level : ℚ
  points : List Sample
deriving DecidableEq

/-- Number of levels visited by the contour loop
`for (let level = Math.ceil(min); level <= max; level += interval)`.
For `interval ≤ 0` the JS loop would never terminate (and never emit a
contour); the engine only calls it with intervals 1 and 2, and the embedding
produces no levels in that case. -/
def contourLevelCount (minE maxE interval : ℚ) : ℕ :=
  if 0 < interval then
    if (ratCeil minE : ℚ) ≤ maxE then
      (ratFloor ((maxE - (ratCeil minE : ℚ)) / interval)).toNat + 1
    else 0
  else 0

/-- `DEMUtils.generateContours`.  For an empty sample list `Math.min()` is
`Infinity` and the loop body never runs, so no contour is emitted. -/
def generateContours (demData : List Sample) (interval : ℚ) : List Contour :=
  match demData with
  | [] => []
  | d :: ds =>
    let minElevation := ds.foldl (fun m p => min m p.elevation) d.elevation
    let maxElevation := ds.foldl (fun m p => max m p.elevation) d.elevation
    (List.range (contourLevelCount minElevation maxElevation interval)).filterMap
      fun k =>
        let level := (ratCeil minElevation : ℚ) + (k : ℚ) * interval
        let contourPoints := demData.filter fun p => decide (|p.elevation - level| < 1 / 2)
        if contourPoints.length > 10 then some ⟨level, contourPoints⟩ else none

/-- A placed element (`{type, position | polygon | points, name, id}`).
Exactly one of the three geometry fields is populated, matching the single
geometry property a source element object carries. -/
structure Element where
  etype : String
  name : String
  id : ℚ
  position : Option (ℚ × ℚ) := none
  polygon : List (ℚ × ℚ) := []
  linePts : List (ℚ × ℚ) := []
deriving DecidableEq

/-- The fields of an `ELEMENT_TYPES` catalog entry used by the engine. -/
structure ElementTypeInfo where
  name : String
  geometry : String
deriving DecidableEq

/-- The `ELEMENT_TYPES` catalog (name and geometry kind per element kind). -/
def ELEMENT_TYPES (key : String) : Option ElementTypeInfo :=
  if key = "HOUSE" then some ⟨"House", "point"⟩
  else if key = "WATER_TANK" then some ⟨"Water Tank", "point"⟩
  else if key = "COMPOST" then some ⟨"Compost", "point"⟩
  else if key = "CHICKEN_COOP" then some ⟨"Chicken Coop", "point"⟩
  else if key = "BEEHIVE" then some ⟨"Beehive", "point"⟩
  else if key = "WINDBREAK" then some ⟨"Windbreak", "line"⟩
  else if key = "SHED" then some ⟨"Tool Shed", "point"⟩
  else if key = "POND" then some ⟨"Pond", "polygon"⟩
  else if key = "HERB_SPIRAL" then some ⟨"Herb Spiral", "point"⟩
  else if key = "MANDALA_GARDEN" then some ⟨"Mandala Garden", "point"⟩
  else if key = "SWALE" then some ⟨"Swale", "line"⟩
  else if key = "POND_AREA" then some ⟨"Pond Area", "polygon"⟩
  else if key = "VEGETABLE_GARDEN" then some ⟨"Vegetable Garden", "polygon"⟩
  else if key = "FRUIT_ORCHARD" then some ⟨"Fruit Orchard", "polygon"⟩
  else if key = "GRAIN_FIELD" then some ⟨"Grain Field", "polygon"⟩
  else none

/-- The 36-vertex closed circle polygon used by `onMapClick`,
`autoDesignLayout`'s pond and the zone areas:
`[lat + r*cos(i*10°), lng + r*sin(i*10°)]`, closed by repeating the first
vertex. -/
def circlePolygon (M : HostMath) (lat lng radius : ℚ) : List (ℚ × ℚ) :=
  let base := (List.range 36).map fun (i : ℕ) =>
    let angle := ((i : ℚ) * 10) * M.qpi / 180
    (lat + radius * M.cosq angle, lng + radius * M.sinq angle)
  base ++ [base.headI]

/-- The element-placement path of `onMapClick` (the no-selection path moves
the marker and leaves the element list unchanged).  Note how the source
converts the boundary ring to a plain array of `[lat, lng]` pairs before
calling `isPointInBoundary`: that plain array has no `.geometry` field, so
`isPointInBoundary` returns `true` unconditionally. -/
def onMapClick (M : HostMath) (selectedElementType : Option String)
    (boundary : Option (List (ℚ × ℚ))) (elements : List Element) (now : ℚ)
    (lat lng : ℚ) : List Element :=
  match selectedElementType with
  | none => elements
  | some key =>
    match ELEMENT_TYPES key with
    | none => elements
    | some elementType =>
      let isInsideBoundary :=
        match boundary with
        | some ring => isPointInBoundary (.arr lat lng) (.raw (ring.map fun c => (c.2, c.1)))
        | none => true
      if isInsideBoundary = false then elements
      else
        let newElement : Option Element :=
          if elementType.geometry = "point" then
            some { etype := key, name := elementType.name, id := now,
                   position := some (lat, lng) }
          else if elementType.geometry = "polygon" then
            some { etype := key, name := elementType.name, id := now,
                   polygon := circlePolygon M lat lng (2 / 1000) }
          else if elementType.geometry = "line" then
            some { etype := key, name := elementType.name, id := now,
                   linePts := [(lat - (3 / 1000) / 2, lng - (3 / 1000) / 2),
                               (lat + (3 / 1000) / 2, lng + (3 / 1000) / 2)] }
          else none
        match newElement with
        | some ne => elements ++ [ne]
        | none => elements

/-- `onElementDrag`.  The source passes the point as the array
`[newPosition.lng, newPosition.lat]`, which `isPointInBoundary` destructures
as `[lng, lat] = [point[1], point[0]]` — i.e. it tests the coordinate-swapped
point against the polygon. -/
def onElementDrag (boundary : Option (List (ℚ × ℚ))) (elements : List Element)
    (dragId : ℚ) (newLat newLng : ℚ) : List Element :=
  elements.map fun el =>
    if el.id = dragId ∧ el.position.isSome then
      let isInsideBoundary :=
        match boundary with
        | none => true
        | some ring => isPointInBoundary (.arr newLng newLat) (.geo ring)
      if isInsideBoundary then { el with position := some (newLat, newLng) } else el
    else el

/-- House step of `autoDesignLayout` (guarded on `elements`, the list as it
was when the callback ran, like every other step). -/
def houseStep (rho0 : ℕ → ℚ × ℚ) (ring : List (ℚ × ℚ)) (elements : List Element)
    (now : ℚ) : List Element :=
  if elements.any fun e => e.etype == "HOUSE" then []
  else [{ etype := "HOUSE", name := "House", id := now,
          position := some (generateRandomPointInBoundary rho0 ring) }]

/-- `elements.find(e => e.type === 'HOUSE')?.position || marker` — note this
reads the pre-existing `elements`, not the freshly placed house. -/
def housePosOf (elements : List Element) (marker : ℚ × ℚ) : ℚ × ℚ :=
  match elements.find? fun e => e.etype == "HOUSE" with
  | some e => match e.position with | some p => p | none => marker
  | none => marker

/-- Water-tank step of `autoDesignLayout`: filter the top-20 high points to
the boundary interior, and if any remain (and no tank exists) place one tank
at the maximum-elevation survivor. -/
def waterTankStep (ring : List (ℚ × ℚ)) (elements : List Element)
    (topography : List TopoSample) (now : ℚ) : List Element :=
  let highPoints := findHighPoints topography 20
  let boundaryHighPoints := filterPointsInBoundary highPoints (.geo ring)
  if boundaryHighPoints.length > 0
      && !(elements.any fun e => e.etype == "WATER_TANK") then
    let highestPoint := boundaryHighPoints.foldl
      (fun highest point =>
        if point.elevation > highest.elevation then point else highest)
      boundaryHighPoints.headI
    [{ etype := "WATER_TANK", name := "Water Tank", id := now + 1,
       position := some (highestPoint.lat, highestPoint.lng) }]
  else []

/-- Pond step of `autoDesignLayout`: a 36-vertex circle of radius
`baseElementSize * 0.8` around the minimum-elevation interior point among the
bottom-20 low points. -/
def pondStep (M : HostMath) (ring : List (ℚ × ℚ)) (elements : List Element)
    (topography : List TopoSample) (baseElementSize now : ℚ) : List Element :=
  let lowPoints := findLowPoints topography 20
  let boundaryLowPoints := filterPointsInBoundary lowPoints (.geo ring)
  if boundaryLowPoints.length > 0
      && !(elements.any fun e => e.etype == "POND_AREA") then
    let lowestPoint := boundaryLowPoints.foldl
      (fun lowest point =>
        if point.elevation < lowest.elevation then point else lowest)
      boundaryLowPoints.headI
    let pondRadius := baseElementSize * (8 / 10)
    [{ etype := "POND_AREA", name := "Pond Area", id := now + 2,
       polygon := circlePolygon M lowestPoint.lat lowestPoint.lng pondRadius }]
  else []

/-- One of the four fixed-offset steps (compost, chicken coop, beehive,
shed): place at `housePos + offset` if that point is inside the boundary. -/
def offsetStep (ring : List (ℚ × ℚ)) (elements : List Element) (housePos : ℚ × ℚ)
    (etype ename : String) (dLat dLng idOff now : ℚ) : List Element :=
  if elements.any fun e => e.etype == etype then []
  else
    let pos := (housePos.1 + dLat, housePos.2 + dLng)
    if isPointInBoundary (.arr pos.1 pos.2) (.geo ring) then
      [{ etype := etype, name := ename, id := now + idOff, position := some pos }]
    else []

/-- Swale step of `autoDesignLayout`: from 1 m contours with more than 5
points, keep every 3rd point, filter to the interior, keep lines that still
have more than 2 points, and emit at most 3 of them. -/
def swaleStep (ring : List (ℚ × ℚ)) (elements : List Element)
    (demData : List Sample) (now : ℚ) : List Element :=
  if elements.any fun e => e.etype == "SWALE" then []
  else
    let contours := generateContours demData 1
    let swaleLines := contours.foldl
      (fun (acc : List (List (ℚ × ℚ) × ℚ × ℕ)) contour =>
        if contour.points.length > 5 then
          let simplifiedPoints : List Sample :=
            (contour.points.enum.filter fun (ip : ℕ × Sample) => ip.1 % 3 == 0).map Prod.snd
          if simplifiedPoints.length > 2 then
            let validPoints : List Sample := simplifiedPoints.filter fun p =>
              isPointInBoundary (.arr p.lat p.lng) (.geo ring)
            if validPoints.length > 2 then
              acc ++ [(validPoints.map fun p => (p.lat, p.lng), contour.level, acc.length)]
            else acc
          else acc
        else acc)
      []
    (swaleLines.take 3).map fun sl =>
      { etype := "SWALE", name := "Swale at " ++ toString sl.2.1 ++ "m",
        id := now + 7 + (sl.2.2 : ℚ), linePts := sl.1 }

/-- Windbreak step of `autoDesignLayout`: a line from a random interior start
point along the bearing perpendicular to the wind, with the end point
projected back to the closest boundary point if it falls outside; emitted
only if both endpoints pass `isPointInBoundary`. -/
def windbreakStep (rho1 : ℕ → ℚ × ℚ) (M : HostMath) (ring : List (ℚ × ℚ))
    (elements : List Element) (windDirection boundaryDiagonal now : ℚ) : List Element :=
  if elements.any fun e => e.etype == "WINDBREAK" then []
  else
    let windAngle := (windDirection + 90) * M.qpi / 180
    let windbreakLength := boundaryDiagonal * (3 / 10)
    let startPoint := generateRandomPointInBoundary rho1 ring
    let endPoint := (startPoint.1 + windbreakLength * M.cosq windAngle,
                     startPoint.2 + windbreakLength * M.sinq windAngle)
    let adjustedEndPoint :=
      if isPointInBoundary (.arr endPoint.1 endPoint.2) (.geo ring) then endPoint
      else findClosestPointOnBoundary M.sqrtq endPoint ring
    if isPointInBoundary (.arr startPoint.1 startPoint.2) (.geo ring)
        && isPointInBoundary (.arr adjustedEndPoint.1 adjustedEndPoint.2) (.geo ring) then
      [{ etype := "WINDBREAK", name := "Windbreak", id := now + 8,
         linePts := [startPoint, adjustedEndPoint] }]
    else []

/-- One zone-area placement (`zoneAreas.forEach` body): a circle polygon of
the given size around a random interior point.  `zr` is the `Math.random()`
draw entering the id. -/
def zoneOne (rhoZ : ℕ → ℚ × ℚ) (zr : ℚ) (M : HostMath) (ring : List (ℚ × ℚ))
    (elements : List Element) (ztype zname : String) (zsize now : ℚ) : List Element :=
  if elements.any fun e => e.etype == ztype then []
  else
    let randomPoint := generateRandomPointInBoundary rhoZ ring
    [{ etype := ztype, name := zname, id := now + 20 + zr * 1000,
       polygon := circlePolygon M randomPoint.1 randomPoint.2 zsize }]

/-- The elements appended by the steps of `autoDesignLayout` after the water
tank (pond, the four offset placements, swales, windbreak, zone areas), in
source order. -/
def autoDesignRest (M : HostMath) (rho : ℕ → ℕ → ℚ × ℚ) (zrnd : ℕ → ℚ)
    (ring : List (ℚ × ℚ)) (elements : List Element) (topography : List TopoSample)
    (demData : List Sample) (marker : ℚ × ℚ) (windDirection now : ℚ) : List Element :=
  let boundarySize := getBoundaryApproximateSize ring
  let boundaryDiagonal :=
    M.sqrtq (boundarySize.1 * boundarySize.1 + boundarySize.2 * boundarySize.2)
  let baseElementSize := boundaryDiagonal * (1 / 10)
  let housePos := housePosOf elements marker
  pondStep M ring elements topography baseElementSize now
    ++ offsetStep ring elements housePos "COMPOST" "Compost" (3 / 10000) (2 / 10000) 3 now
    ++ offsetStep ring elements housePos "CHICKEN_COOP" "Chicken Coop" (5 / 10000) (4 / 10000) 4 now
    ++ offsetStep ring elements housePos "BEEHIVE" "Beehive" (4 / 10000) (-(3 / 10000)) 5 now
    ++ offsetStep ring elements housePos "SHED" "Tool Shed" (1 / 10000) (2 / 10000) 6 now
    ++ swaleStep ring elements demData now
    ++ windbreakStep (rho 1) M ring elements windDirection boundaryDiagonal now
    ++ zoneOne (rho 2) (zrnd 0) M ring elements "VEGETABLE_GARDEN" "Vegetable Garden" baseElementSize now
    ++ zoneOne (rho 3) (zrnd 1) M ring elements "FRUIT_ORCHARD" "Fruit Orchard" (baseElementSize * (12 / 10)) now
    ++ zoneOne (rho 4) (zrnd 2) M ring elements "GRAIN_FIELD" "Grain Field" (baseElementSize * (15 / 10)) now

/-- The elements appended by one `autoDesignLayout` run.  Every step's guard
reads the pre-existing `elements` (the React closure variable), so the steps
are independent and their pushes concatenate.  `rho k` is the random stream
used by the `k`-th `generateRandomPointInBoundary` call site, `zrnd` the
id-jitter draws of the zone areas. -/
def autoDesignNewParts (M : HostMath) (rho : ℕ → ℕ → ℚ × ℚ) (zrnd : ℕ → ℚ)
    (ring : List (ℚ × ℚ)) (elements : List Element) (topography : List TopoSample)
    (demData : List Sample) (marker : ℚ × ℚ) (windDirection now : ℚ) : List Element :=
  houseStep (rho 0) ring elements now
    ++ (waterTankStep ring elements topography now
      ++ autoDesignRest M rho zrnd ring elements topography demData marker windDirection now)

/-- `autoDesignLayout` with a boundary present: `newElements` starts as a
copy of `elements` and every step only pushes onto it. -/
def autoDesignLayout (M : HostMath) (rho : ℕ → ℕ → ℚ × ℚ) (zrnd : ℕ → ℚ)
    (ring : List (ℚ × ℚ)) (elements : List Element) (topography : List TopoSample)
    (demData : List Sample) (marker : ℚ × ℚ) (windDirection now : ℚ) : List Element :=
  elements ++ autoDesignNewParts M rho zrnd ring elements topography demData marker windDirection now

theorem ratFloor_eq (q : ℚ) : ratFloor q = ⌊q⌋ := by
  rw [Rat.floor_def]; rfl

theorem ratCeil_eq (q : ℚ) : ratCeil q = ⌈q⌉ := by
  rw [ratCeil, ratFloor_eq, Int.floor_neg, neg_neg]

theorem jsToFixed1_eq (q : ℚ) : jsToFixed1 q = ((⌊q * 10 + 1 / 2⌋ : ℤ) : ℚ) / 10 := by
  rw [jsToFixed1, ratFloor_eq]

theorem jsToFixed1_mono {a b : ℚ} (h : a ≤ b) : jsToFixed1 a ≤ jsToFixed1 b := by
  rw [jsToFixed1_eq, jsToFixed1_eq]
  have hf : ⌊a * 10 + 1 / 2⌋ ≤ ⌊b * 10 + 1 / 2⌋ := Int.floor_le_floor (by linarith)
  have hq : ((⌊a * 10 + 1 / 2⌋ : ℤ) : ℚ) ≤ ((⌊b * 10 + 1 / 2⌋ : ℤ) : ℚ) := by
    exact_mod_cast hf
  linarith

theorem intCast_le_jsToFixed1 {z : ℤ} {q : ℚ} (h : (z : ℚ) ≤ q) :
    (z : ℚ) ≤ jsToFixed1 q := by
  rw [jsToFixed1_eq]
  have hf : (z * 10 : ℤ) ≤ ⌊q * 10 + 1 / 2⌋ := by
    rw [Int.le_floor]
    push_cast
    linarith
  have hq : ((z * 10 : ℤ) : ℚ) ≤ ((⌊q * 10 + 1 / 2⌋ : ℤ) : ℚ) := by exact_mod_cast hf
  push_cast at hq
  linarith

theorem jsToFixed1_le_intCast {z : ℤ} {q : ℚ} (h : q < (z : ℚ)) :
    jsToFixed1 q ≤ (z : ℚ) := by
  rw [jsToFixed1_eq]
  have hf : ⌊q * 10 + 1 / 2⌋ < z * 10 + 1 := by
    rw [Int.floor_lt]
    push_cast
    linarith
  have hf' : ⌊q * 10 + 1 / 2⌋ ≤ z * 10 := by omega
  have hq : ((⌊q * 10 + 1 / 2⌋ : ℤ) : ℚ) ≤ ((z * 10 : ℤ) : ℚ) := by exact_mod_cast hf'
  push_cast at hq
  linarith

/-- Host-math oracle returning 0 everywhere (an admissible instantiation used
by concrete scenarios). -/
def hostZero : HostMath := ⟨fun _ => 0, fun _ => 0, fun _ => 0, fun _ _ => 0, 0⟩

/-- Random stream whose every draw is 1/2. -/
def rhoHalf : ℕ → ℕ → ℚ × ℚ := fun _ _ => (1 / 2, 1 / 2)

/-- Zero random stream. -/
def rnd0 : ℕ → ℚ := fun _ => 0

/-- The unit square boundary ring, in GeoJSON `(lng, lat)` order. -/
def ringUnitSq : List (ℚ × ℚ) := [(0, 0), (1, 0), (1, 1), (0, 1), (0, 0)]

/-- A unit square with latitudes in `[10, 11]` and longitudes in `[0, 1]`. -/
def ringShifted : List (ℚ × ℚ) := [(0, 10), (1, 10), (1, 11), (0, 11), (0, 10)]

/-- A degenerate triangle whose vertices share longitude 3 (zero-width
bounding box, tiny latitude extent). -/
def ringZeroWidthA : List (ℚ × ℚ) := [(3, 0), (3, 1 / 2000), (3, 1 / 1000), (3, 0)]

/-- A second degenerate triangle, on longitude 7. -/
def ringZeroWidthB : List (ℚ × ℚ) := [(7, 0), (7, 1 / 1000), (7, 1 / 500), (7, 0)]

/-- A tiny non-degenerate square (side 0.001). -/
def ringTiny : List (ℚ × ℚ) :=
  [(0, 0), (1 / 1000, 0), (1 / 1000, 1 / 1000), (0, 1 / 1000), (0, 0)]

theorem grpibGo_spec (rho : ℕ → ℚ × ℚ) (ring : List (ℚ × ℚ)) (bb : BBox) :
    ∀ (n k : ℕ), grpibGo rho ring bb k n = bboxMidpoint ring ∨
      pointInPolygon (grpibGo rho ring bb k n).2 (grpibGo rho ring bb k n).1 ring = true
  | 0, _ => Or.inl rfl
  | n + 1, k => by
    simp only [grpibGo]
    split
    · next h => exact Or.inr h
    · exact grpibGo_spec rho ring bb n (k + 1)

/-- C8: interior sampling always returns a point; when the rejection loop
succeeds the returned `[lat, lng]` point satisfies `pointInPolygon`, and
otherwise the deterministic bounding-box midpoint is returned instead of
failing.  This holds for every boundary ring and every random stream. -/
theorem generateRandomPointInBoundary_spec (rho : ℕ → ℚ × ℚ) (ring : List (ℚ × ℚ)) :
    generateRandomPointInBoundary rho ring = bboxMidpoint ring ∨
      pointInPolygon (generateRandomPointInBoundary rho ring).2
        (generateRandomPointInBoundary rho ring).1 ring = true :=
  grpibGo_spec rho ring (bboxOf ring) 1000 0

theorem generateContours_sound {demData : List Sample} {interval : ℚ} {c : Contour}
    (hc : c ∈ generateContours demData interval) :
    10 < c.points.length ∧ ∀ p ∈ c.points, |p.elevation - c.level| < 1 / 2 := by
  match demData with
  | [] => simp [generateContours] at hc
  | d :: ds =>
    simp only [generateContours, List.mem_filterMap, List.mem_range] at hc
    obtain ⟨k, -, hk⟩ := hc
    split at hk
    · next hlen =>
      cases hk
      refine ⟨hlen, ?_⟩
      intro p hp
      rw [List.mem_filter] at hp
      exact of_decide_eq_true hp.2
    · exact absurd hk (by simp)

/-- C9: every contour emitted by `generateContours` has more than 10 points,
and each of its points has elevation strictly within 0.5 of the contour's
level, for every non-empty input sample list and every positive interval
(for `interval ≤ 0` the source loop never terminates, hence never emits). -/
theorem generateContours_points (demData : List Sample) (interval : ℚ)
    (hne : demData ≠ []) (hpos : 0 < interval) :
    ∀ c ∈ generateContours demData interval,
      10 < c.points.length ∧ ∀ p ∈ c.points, |p.elevation - c.level| < 1 / 2 :=
  fun _ hc => generateContours_sound hc

/-- The 11-sample flat terrain used as a concrete contour scenario. -/
def demFlat : List Sample :=
  (List.range 11).map fun (k : ℕ) => ⟨(k : ℚ) / 100, 0, 5⟩

set_option maxRecDepth 8000 in
/-- Witness for C9: on an 11-sample flat terrain with interval 1, the single
emitted contour at level 5 contains all 11 points and each is within 0.5. -/
theorem generateContours_points_witness :
    demFlat ≠ [] ∧ (0 : ℚ) < 1 ∧
    (⟨5, demFlat⟩ : Contour) ∈ generateContours demFlat 1 ∧
    10 < (⟨5, demFlat⟩ : Contour).points.length ∧
    |(⟨0, 0, 5⟩ : Sample).elevation - (⟨5, demFlat⟩ : Contour).level| < 1 / 2 := by
  have hm : (⟨5, demFlat⟩ : Contour) ∈ generateContours demFlat 1 := by
    decide
  have h := generateContours_points demFlat 1 (by decide)
    (by norm_num) _ hm
  exact ⟨by decide, by norm_num, hm, h.1,
    h.2 ⟨0, 0, 5⟩ (by decide)⟩

theorem DemSample_elevation_mk (a b : ℚ) (e : Option ℚ) :
    (DemSample.mk a b e).elevation = e := rfl

theorem generateDEMBoundary_elevation {M : HostMath} {rnd : ℕ → ℚ}
    {ring : List (ℚ × ℚ)} {s : DemSample} (hs : s ∈ generateDEMBoundary M rnd ring)
    (h : 0 < bboxLngRange ring) :
    ∃ E : ℚ, s.elevation = some (jsToFixed1 (max 2 E)) := by
  simp only [generateDEMBoundary, List.mem_flatMap, List.mem_map, List.mem_range] at hs
  obtain ⟨i, hi, j, hj, rfl⟩ := hs
  simp only [DemSample_elevation_mk,
    if_neg (show (bboxOf ring).maxLng - (bboxOf ring).minLng ≠ 0 from ne_of_gt h)]
  exact ⟨_, rfl⟩

/-- C4 (amended): every elevation sample of the with-boundary branch is a
number at least 2 provided the boundary's bounding box has positive longitude
extent (with zero extent the eastward-gradient division makes every sample
NaN); every sample of the no-boundary branch is a number at least 2
unconditionally (its formula has no explicit floor, but its minimum is 3.5),
for every anchor, radius, sine oracle with values ≥ -1, and jitter draws in
[0, 1). -/
theorem generateDEM_elevation_floor (M : HostMath) (rnd : ℕ → ℚ)
    (ring : List (ℚ × ℚ)) (lat lng radius : ℚ) :
    (0 < bboxLngRange ring →
      ∀ s ∈ generateDEMBoundary M rnd ring, isNumGe s.elevation 2 = true) ∧
    ((∀ t : ℚ, -1 ≤ M.sinq t) → (∀ k : ℕ, 0 ≤ rnd k) →
      ∀ s ∈ generateDEMNoBoundary M rnd lat lng radius, isNumGe s.elevation 2 = true) := by
  constructor
  · intro h s hs
    obtain ⟨E, hE⟩ := generateDEMBoundary_elevation hs h
    rw [hE]
    simp only [isNumGe, decide_eq_true_eq]
    have h2 : ((2 : ℤ) : ℚ) ≤ max 2 E := by push_cast; exact le_max_left _ _
    have h3 := intCast_le_jsToFixed1 h2
    push_cast at h3
    exact h3
  · intro hsin hrnd s hs
    simp only [generateDEMNoBoundary, List.mem_flatMap, List.mem_map, List.mem_range] at hs
    obtain ⟨a, ha, b, hb, rfl⟩ := hs
    simp only [isNumGe, decide_eq_true_eq]
    have hq : ((2 : ℤ) : ℚ) ≤ 10 + (((a : ℤ) - 15 : ℤ) : ℚ) * (3 / 10)
        + M.sinq ((lat + (((a : ℤ) - 15 : ℤ) : ℚ) * (radius / 15)) * 50) * 2
        + rnd (a * 31 + b) * (1 / 2) := by
      have h1 := hsin ((lat + (((a : ℤ) - 15 : ℤ) : ℚ) * (radius / 15)) * 50)
      have h2 := hrnd (a * 31 + b)
      have hnn : (0 : ℚ) ≤ (a : ℚ) := Nat.cast_nonneg a
      push_cast
      push_cast at h1
      linarith
    have h3 := intCast_le_jsToFixed1 hq
    exact_mod_cast h3

/-- Witness for C4: concrete samples of both branches (the head of the
with-boundary grid over a tiny square, and the head of the anchor-centered
grid), both with elevation a number ≥ 2. -/
theorem generateDEM_elevation_floor_witness :
    0 < bboxLngRange ringTiny ∧
    isNumGe (⟨0, 0, some 4⟩ : DemSample).elevation 2 = true ∧
    isNumGe (⟨0, 0, some (11 / 2)⟩ : DemSample).elevation 2 = true := by
  refine ⟨by decide, ?_, ?_⟩
  · exact (generateDEM_elevation_floor hostZero rnd0 ringTiny 0 0 0).1
      (by decide) _ (by decide)
  · exact (generateDEM_elevation_floor hostZero rnd0 ringTiny 0 0 0).2
      (fun t => by norm_num [hostZero]) (fun k => by norm_num [rnd0]) _
      (by decide)

/-- Counterexample for C4: on a degenerate boundary whose bounding box has
zero width (all vertices on longitude 7), every generated sample has NaN
elevation — the very first sample is `⟨0, 7, none⟩` — so "every elevation is
≥ 2.0" fails in the with-boundary branch. -/
theorem generateDEM_elevation_flaw :
    (generateDEMBoundary hostZero rnd0 ringZeroWidthB).head? = some ⟨0, 7, none⟩ ∧
    ¬ ∀ s ∈ generateDEMBoundary hostZero rnd0 ringZeroWidthB,
        isNumGe s.elevation 2 = true := by
  exact ⟨by decide, by decide⟩

/-- C3 (amended): `getBoundaryApproximateSize` (used for element sizing) does
widen degenerate axes, returning strictly positive width and height for every
ring; the elevation-grid density is at least a 15×15 grid (its computation
contains no division by the region extent at all); and the elevation values
stay finite whenever the bounding box's longitude extent is positive.  But no
widening is applied inside `generateDEM` itself: with zero longitude extent
the gradient term divides by zero (see the counterexample). -/
theorem region_size_and_dem_finiteness (M : HostMath) (rnd : ℕ → ℚ)
    (ring : List (ℚ × ℚ)) :
    0 < (getBoundaryApproximateSize ring).1 ∧
    0 < (getBoundaryApproximateSize ring).2 ∧
    15 ≤ demGridPoints ring ∧
    (0 < bboxLngRange ring →
      ∀ s ∈ generateDEMBoundary M rnd ring, s.elevation ≠ none) := by
  refine ⟨?_, ?_, le_max_left _ _, ?_⟩
  · unfold getBoundaryApproximateSize
    split
    · norm_num
    · simp only
      split
      · next h => exact h
      · norm_num
  · unfold getBoundaryApproximateSize
    split
    · norm_num
    · simp only
      split
      · next h => exact h
      · norm_num
  · intro h s hs
    obtain ⟨E, hE⟩ := generateDEMBoundary_elevation hs h
    rw [hE]
    exact Option.some_ne_none _

/-- Witness for C3: the tiny square has positive widened sizes, grid density
15, and its first generated sample has a finite (non-NaN) elevation. -/
theorem region_size_and_dem_finiteness_witness :
    0 < (getBoundaryApproximateSize ringTiny).1 ∧
    0 < (getBoundaryApproximateSize ringTiny).2 ∧
    15 ≤ demGridPoints ringTiny ∧
    (⟨0, 0, some 4⟩ : DemSample).elevation ≠ none := by
  have h := region_size_and_dem_finiteness hostZero rnd0 ringTiny
  exact ⟨h.1, h.2.1, h.2.2.1,
    h.2.2.2 (by decide) _ (by decide)⟩

/-- Counterexample for C3: for a near-zero-area triangle whose vertices share
longitude 3 the derived region is NOT widened: the gradient term of
`generateDEM` computes `0/0` and every produced sample value is NaN (the
first one is `⟨0, 3, none⟩`), refuting "no division by zero occurs and every
produced sample value is finite". -/
theorem region_widening_flaw :
    (generateDEMBoundary hostZero rnd0 ringZeroWidthA).head? = some ⟨0, 3, none⟩ ∧
    ¬ ∀ s ∈ generateDEMBoundary hostZero rnd0 ringZeroWidthA, s.elevation ≠ none := by
  exact ⟨by decide, by decide⟩

theorem foldl_pick_mem {α : Type} (f : α → α → α)
    (hf : ∀ a b, f a b = a ∨ f a b = b) :
    ∀ (l : List α) (a : α), l.foldl f a = a ∨ l.foldl f a ∈ l
  | [], _ => Or.inl rfl
  | x :: xs, a => by
    rcases foldl_pick_mem f hf xs (f a x) with h | h
    · rcases hf a x with h' | h'
      · exact Or.inl (by rw [List.foldl_cons, h, h'])
      · refine Or.inr ?_
        rw [List.foldl_cons, h, h']
        exact List.mem_cons_self _ _
    · exact Or.inr (List.mem_cons_of_mem _ (by rw [List.foldl_cons]; exact h))

theorem steepestPick_mem (cur first : TopoSample) (l : List TopoSample) :
    steepestPick cur first l = first ∨ steepestPick cur first l ∈ l := by
  unfold steepestPick
  exact foldl_pick_mem _ (fun a b => by split <;> simp) l first

theorem flowNeighbors_lt {topography : List TopoSample} {processed : List (ℚ × ℚ)}
    {cur p : TopoSample} (hp : p ∈ flowNeighbors topography processed cur) :
    p.elevation < cur.elevation := by
  unfold flowNeighbors at hp
  rw [List.mem_filter] at hp
  have h := hp.2
  simp only [Bool.and_eq_true, decide_eq_true_eq] at h
  exact h.2

theorem flowWalk_chain (topography : List TopoSample) :
    ∀ (fuel : ℕ) (cur : TopoSample) (processed : List (ℚ × ℚ)),
      List.Chain (fun a b => b.elevation < a.elevation) cur
        (flowWalk topography fuel cur processed).1
  | 0, _, _ => List.Chain.nil
  | fuel + 1, cur, processed => by
    simp only [flowWalk]
    cases hn : flowNeighbors topography processed cur with
    | nil => exact List.Chain.nil
    | cons nh nt =>
      simp only
      refine List.Chain.cons ?_ (flowWalk_chain topography fuel _ _)
      have hmem : steepestPick cur nh (nh :: nt) ∈ flowNeighbors topography processed cur := by
        rw [hn]
        rcases steepestPick_mem cur nh (nh :: nt) with h | h
        · rw [h]; exact List.mem_cons_self _ _
        · exact h
      exact flowNeighbors_lt hmem

theorem flowSeed_paths {topography : List TopoSample}
    {acc : List (List TopoSample) × List (ℚ × ℚ)} {start : TopoSample}
    (hacc : ∀ p ∈ acc.1,
      3 < p.length ∧ List.Chain' (fun a b => b.elevation < a.elevation) p) :
    ∀ p ∈ (flowSeed topography acc start).1,
      3 < p.length ∧ List.Chain' (fun a b => b.elevation < a.elevation) p := by
  unfold flowSeed
  split
  · exact hacc
  · simp only
    split
    · next hlen =>
      intro p hp
      rcases List.mem_append.mp hp with h | h
      · exact hacc p h
      · rcases List.mem_singleton.mp h with rfl
        exact ⟨hlen, flowWalk_chain topography 20 start _⟩
    · exact hacc

/-- C7: every flow path emitted by `calculateWaterFlow` is strictly
decreasing in elevation along consecutive points (hence non-increasing) and
has more than 3 points, for every input topography list. -/
theorem calculateWaterFlow_paths (topography : List TopoSample) :
    ∀ path ∈ calculateWaterFlow topography,
      3 < path.length ∧ List.Chain' (fun a b => b.elevation < a.elevation) path := by
  have hgen : ∀ (hps : List TopoSample) (acc : List (List TopoSample) × List (ℚ × ℚ)),
      (∀ p ∈ acc.1, 3 < p.length ∧ List.Chain' (fun a b => b.elevation < a.elevation) p) →
      ∀ p ∈ (hps.foldl (flowSeed topography) acc).1,
        3 < p.length ∧ List.Chain' (fun a b => b.elevation < a.elevation) p := by
    intro hps
    induction hps with
    | nil => exact fun _ h => h
    | cons x xs ih =>
      intro acc hacc
      exact ih _ (flowSeed_paths hacc)
  exact hgen (findHighPoints topography 10) ([], []) (by simp)

/-- A strictly descending line of five topography samples, spaced 0.001°. -/
def topoLine : List TopoSample :=
  [⟨0, 0, 10, 0, 0⟩, ⟨1 / 1000, 0, 9, 0, 0⟩, ⟨2 / 1000, 0, 8, 0, 0⟩,
   ⟨3 / 1000, 0, 7, 0, 0⟩, ⟨4 / 1000, 0, 6, 0, 0⟩]

set_option maxRecDepth 8000 in
/-- Witness for C7: on the descending five-sample line the simulator emits
exactly the full line as a flow path; it has 5 > 3 points and is strictly
decreasing. -/
theorem calculateWaterFlow_paths_witness :
    topoLine ∈ calculateWaterFlow topoLine ∧ 3 < topoLine.length ∧
    List.Chain' (fun a b => b.elevation < a.elevation) topoLine := by
  have hm : topoLine ∈ calculateWaterFlow topoLine := by decide
  have h := calculateWaterFlow_paths topoLine topoLine hm
  exact ⟨hm, h.1, h.2⟩

theorem TopoSample_slope_mk (a b c d e : ℚ) : (TopoSample.mk a b c d e).slope = d := rfl

theorem TopoSample_aspect_mk (a b c d e : ℚ) : (TopoSample.mk a b c d e).aspect = e := rfl

theorem jsToFixed1_nonneg {q : ℚ} (h : 0 ≤ q) : 0 ≤ jsToFixed1 q := by
  have h0 : ((0 : ℤ) : ℚ) ≤ q := by exact_mod_cast h
  have h1 := intCast_le_jsToFixed1 h0
  simpa using h1

theorem jsToFixed1_le_360 {q : ℚ} (h : q < 360) : jsToFixed1 q ≤ 360 := by
  have h0 : q < ((360 : ℤ) : ℚ) := by exact_mod_cast h
  have h1 := jsToFixed1_le_intCast h0
  simpa using h1

theorem aspectRaw_range (atan2q : ℚ → ℚ → ℚ)
    (hrange : ∀ y x : ℚ, -180 < atan2q y x ∧ atan2q y x ≤ 180)
    (pelev : ℚ) (east north : Option Sample) :
    0 ≤ aspectRaw atan2q pelev east north ∧ aspectRaw atan2q pelev east north < 360 := by
  match east, north with
  | some e, some n =>
    rcases hrange (n.elevation - pelev) (e.elevation - pelev) with ⟨hl, hu⟩
    have hred : aspectRaw atan2q pelev (some e) (some n) =
        (if atan2q (n.elevation - pelev) (e.elevation - pelev) < 0
         then atan2q (n.elevation - pelev) (e.elevation - pelev) + 360
         else atan2q (n.elevation - pelev) (e.elevation - pelev)) := rfl
    rw [hred]
    constructor
    · split
      · linarith
      · next h => linarith [not_lt.mp h]
    · split
      · linarith
      · next h => linarith [not_lt.mp h]
  | none, _ => exact ⟨le_refl 0, by show (0 : ℚ) < 360; norm_num⟩
  | some _, none => exact ⟨le_refl 0, by show (0 : ℚ) < 360; norm_num⟩

/-- C6 (amended): every TopoSample emitted by `calculateTopography` has
slope ≥ 0 and aspect in the closed interval [0, 360] — the one-decimal
rounding can produce exactly 360 for bearings within 0.05° below 360 (see the
counterexample), so the half-open bound of the claim fails, but the closed
bound holds for every input sample list and every atan2 oracle respecting the
mathematical range (-180, 180] of `Math.atan2` in degrees. -/
theorem calculateTopography_ranges (atan2q : ℚ → ℚ → ℚ)
    (hrange : ∀ y x : ℚ, -180 < atan2q y x ∧ atan2q y x ≤ 180)
    (demData : List Sample) :
    ∀ t ∈ calculateTopography atan2q demData,
      0 ≤ t.slope ∧ 0 ≤ t.aspect ∧ t.aspect ≤ 360 := by
  intro t ht
  simp only [calculateTopography, List.mem_filterMap] at ht
  obtain ⟨ip, hip, hf⟩ := ht
  split at hf
  · cases hf
    refine ⟨?_, ?_, ?_⟩
    · rw [TopoSample_slope_mk]
      exact jsToFixed1_nonneg (by positivity)
    · rw [TopoSample_aspect_mk]
      exact jsToFixed1_nonneg (aspectRaw_range atan2q hrange _ _ _).1
    · rw [TopoSample_aspect_mk]
      exact jsToFixed1_le_360 (aspectRaw_range atan2q hrange _ _ _).2
  · cases hf

/-- An atan2 oracle agreeing (to 8 decimals) with the true value of
`Math.atan2(-0.5, 1000) * 180 / Math.PI ≈ -0.02864789°` at the one point
where the scenario evaluates it, and 0 elsewhere. -/
def atan2Flaw : ℚ → ℚ → ℚ := fun y x =>
  if y = -(1 / 2) ∧ x = 1000 then -(2864789 / 100000000) else 0

/-- Four samples: a point with an eastward neighbor 1000 m higher and a
northward neighbor 0.5 m lower, plus one filler neighbor. -/
def demAspect : List Sample :=
  [⟨0, 0, 0⟩, ⟨0, 1 / 2000, 1000⟩, ⟨1 / 2000, 0, -(1 / 2)⟩, ⟨1 / 500, 1 / 500, 5⟩]

set_option maxRecDepth 8000 in
/-- Counterexample for C6: the steepest-descent bearing of the first sample
is about -0.0286°, which normalizes to 359.97° and rounds (toFixed(1)) to
exactly 360, violating aspect < 360. -/
theorem calculateTopography_aspect_flaw :
    ((calculateTopography atan2Flaw demAspect).head?.map TopoSample.aspect) = some 360 ∧
    ¬ ∀ t ∈ calculateTopography atan2Flaw demAspect, t.aspect < 360 := by
  exact ⟨by decide, by decide⟩

/-- Four flat samples: the first has an eastward and a northward neighbor at
equal elevation, so its aspect is `atan2(0, 0) = 0`. -/
def demFlat4 : List Sample :=
  [⟨0, 0, 5⟩, ⟨0, 1 / 2000, 5⟩, ⟨1 / 2000, 0, 5⟩, ⟨1 / 500, 1 / 500, 5⟩]

set_option maxRecDepth 8000 in
/-- Witness for C6: a concrete emitted TopoSample (flat terrain, zero
bearing) with slope 0 and aspect 0 ∈ [0, 360]. -/
theorem calculateTopography_ranges_witness :
    (⟨0, 0, 5, 0, 0⟩ : TopoSample) ∈ calculateTopography (fun _ _ => 0) demFlat4 ∧
    0 ≤ (⟨0, 0, 5, 0, 0⟩ : TopoSample).slope ∧
    0 ≤ (⟨0, 0, 5, 0, 0⟩ : TopoSample).aspect ∧
    (⟨0, 0, 5, 0, 0⟩ : TopoSample).aspect ≤ 360 := by
  have hm : (⟨0, 0, 5, 0, 0⟩ : TopoSample)
      ∈ calculateTopography (fun _ _ => 0) demFlat4 := by
    decide
  exact ⟨hm, calculateTopography_ranges (fun _ _ => 0)
    (fun y x => by norm_num) demFlat4 _ hm⟩

theorem houseStep_mem {rho0 : ℕ → ℚ × ℚ} {ring : List (ℚ × ℚ)}
    {elements : List Element} {now : ℚ} {e : Element}
    (he : e ∈ houseStep rho0 ring elements now) :
    e.etype = "HOUSE" ∧ elements.any (fun x => x.etype == "HOUSE") = false := by
  simp only [houseStep] at he
  split at he
  · simp at he
  · next hguard =>
    rcases List.mem_singleton.mp he with rfl
    exact ⟨rfl, by simpa using hguard⟩

theorem waterTankStep_mem {ring : List (ℚ × ℚ)} {elements : List Element}
    {topography : List TopoSample} {now : ℚ} {e : Element}
    (he : e ∈ waterTankStep ring elements topography now) :
    e.etype = "WATER_TANK" ∧
      elements.any (fun x => x.etype == "WATER_TANK") = false := by
  simp only [waterTankStep] at he
  split at he
  · next hguard =>
    rcases List.mem_singleton.mp he with rfl
    simp only [Bool.and_eq_true, Bool.not_eq_true'] at hguard
    exact ⟨rfl, hguard.2⟩
  · simp at he

theorem pondStep_mem {M : HostMath} {ring : List (ℚ × ℚ)} {elements : List Element}
    {topography : List TopoSample} {baseElementSize now : ℚ} {e : Element}
    (he : e ∈ pondStep M ring elements topography baseElementSize now) :
    e.etype = "POND_AREA" ∧
      elements.any (fun x => x.etype == "POND_AREA") = false := by
  simp only [pondStep] at he
  split at he
  · next hguard =>
    rcases List.mem_singleton.mp he with rfl
    simp only [Bool.and_eq_true, Bool.not_eq_true'] at hguard
    exact ⟨rfl, hguard.2⟩
  · simp at he

theorem offsetStep_mem {ring : List (ℚ × ℚ)} {elements : List Element}
    {housePos : ℚ × ℚ} {ty ename : String} {dLat dLng idOff now : ℚ} {e : Element}
    (he : e ∈ offsetStep ring elements housePos ty ename dLat dLng idOff now) :
    e.etype = ty ∧ elements.any (fun x => x.etype == ty) = false := by
  simp only [offsetStep] at he
  split at he
  · simp at he
  · next hguard =>
    split at he
    · rcases List.mem_singleton.mp he with rfl
      exact ⟨rfl, by simpa using hguard⟩
    · simp at he

theorem swaleStep_mem {ring : List (ℚ × ℚ)} {elements : List Element}
    {demData : List Sample} {now : ℚ} {e : Element}
    (he : e ∈ swaleStep ring elements demData now) :
    e.etype = "SWALE" ∧ elements.any (fun x => x.etype == "SWALE") = false := by
  simp only [swaleStep] at he
  split at he
  · simp at he
  · next hguard =>
    rw [List.mem_map] at he
    obtain ⟨sl, hsl, rfl⟩ := he
    exact ⟨rfl, by simpa using hguard⟩

theorem windbreakStep_mem {rho1 : ℕ → ℚ × ℚ} {M : HostMath} {ring : List (ℚ × ℚ)}
    {elements : List Element} {windDirection boundaryDiagonal now : ℚ} {e : Element}
    (he : e ∈ windbreakStep rho1 M ring elements windDirection boundaryDiagonal now) :
    e.etype = "WINDBREAK" ∧
      elements.any (fun x => x.etype == "WINDBREAK") = false := by
  simp only [windbreakStep] at he
  split at he
  · simp at he
  · next hguard =>
    split at he
    · split at he
      · rcases List.mem_singleton.mp he with rfl
        exact ⟨rfl, by simpa using hguard⟩
      · simp at he
    · split at he
      · rcases List.mem_singleton.mp he with rfl
        exact ⟨rfl, by simpa using hguard⟩
      · simp at he

theorem zoneOne_mem {rhoZ : ℕ → ℚ × ℚ} {zr : ℚ} {M : HostMath} {ring : List (ℚ × ℚ)}
    {elements : List Element} {zty zname : String} {zsize now : ℚ} {e : Element}
    (he : e ∈ zoneOne rhoZ zr M ring elements zty zname zsize now) :
    e.etype = zty ∧ elements.any (fun x => x.etype == zty) = false := by
  simp only [zoneOne] at he
  split at he
  · simp at he
  · next hguard =>
    rcases List.mem_singleton.mp he with rfl
    exact ⟨rfl, by simpa using hguard⟩

/-- C5: one `autoDesignLayout` run returns exactly the existing element list
with the newly synthesized elements appended (nothing removed or replaced),
and for every kind already present among the existing elements no new element
of that kind is appended — so synthesis never produces a second element of a
kind already present and re-running is a no-op per present kind. -/
theorem autoDesign_appends_and_idempotent (M : HostMath) (rho : ℕ → ℕ → ℚ × ℚ)
    (zrnd : ℕ → ℚ) (ring : List (ℚ × ℚ)) (elements : List Element)
    (topography : List TopoSample) (demData : List Sample) (marker : ℚ × ℚ)
    (windDirection now : ℚ) (ty : String)
    (hpresent : elements.any (fun x => x.etype == ty) = true) :
    autoDesignLayout M rho zrnd ring elements topography demData marker windDirection now
      = elements ++ autoDesignNewParts M rho zrnd ring elements topography demData
          marker windDirection now ∧
    ∀ e ∈ autoDesignNewParts M rho zrnd ring elements topography demData
        marker windDirection now, e.etype ≠ ty := by
  refine ⟨rfl, ?_⟩
  intro e he
  have killer : ∀ {T : String}, e.etype = T →
      elements.any (fun x => x.etype == T) = false → e.etype ≠ ty := by
    intro T hT hfalse hcontra
    have hTy : ty = T := by rw [← hcontra, hT]
    rw [hTy] at hpresent
    rw [hpresent] at hfalse
    cases hfalse
  simp only [autoDesignNewParts, autoDesignRest, List.append_assoc, List.mem_append] at he
  rcases he with h | h | h | h | h | h | h | h | h | h | h | h
  · exact killer (houseStep_mem h).1 (houseStep_mem h).2
  · exact killer (waterTankStep_mem h).1 (waterTankStep_mem h).2
  · exact killer (pondStep_mem h).1 (pondStep_mem h).2
  · exact killer (offsetStep_mem h).1 (offsetStep_mem h).2
  · exact killer (offsetStep_mem h).1 (offsetStep_mem h).2
  · exact killer (offsetStep_mem h).1 (offsetStep_mem h).2
  · exact killer (offsetStep_mem h).1 (offsetStep_mem h).2
  · exact killer (swaleStep_mem h).1 (swaleStep_mem h).2
  · exact killer (windbreakStep_mem h).1 (windbreakStep_mem h).2
  · exact killer (zoneOne_mem h).1 (zoneOne_mem h).2
  · exact killer (zoneOne_mem h).1 (zoneOne_mem h).2
  · exact killer (zoneOne_mem h).1 (zoneOne_mem h).2

theorem foldl_maxsel :
    ∀ (l : List TopoSample) (a : TopoSample),
      (l.foldl (fun highest point =>
          if point.elevation > highest.elevation then point else highest) a = a ∨
        l.foldl (fun highest point =>
          if point.elevation > highest.elevation then point else highest) a ∈ l) ∧
      a.elevation ≤ (l.foldl (fun highest point =>
        if point.elevation > highest.elevation then point else highest) a).elevation ∧
      ∀ q ∈ l, q.elevation ≤ (l.foldl (fun highest point =>
        if point.elevation > highest.elevation then point else highest) a).elevation
  | [], a => ⟨Or.inl rfl, le_refl _, by simp⟩
  | x :: xs, a => by
    have ih := foldl_maxsel xs (if x.elevation > a.elevation then x else a)
    rw [List.foldl_cons] at *
    refine ⟨?_, ?_, ?_⟩
    · rcases ih.1 with h | h
      · rw [h]
        split
        · exact Or.inr (List.mem_cons_self _ _)
        · exact Or.inl rfl
      · exact Or.inr (List.mem_cons_of_mem _ h)
    · refine le_trans ?_ ih.2.1
      split
      · next hgt => exact le_of_lt hgt
      · exact le_refl _
    · intro q hq
      rcases List.mem_cons.mp hq with rfl | hq'
      · refine le_trans ?_ ih.2.1
        split
        · exact le_refl _
        · next hng => exact le_of_not_lt hng
      · exact ih.2.2 q hq'

theorem headI_mem_of_ne_nil : ∀ {l : List TopoSample}, l ≠ [] → l.headI ∈ l
  | [], h => absurd rfl h
  | _ :: _, _ => List.mem_cons_self _ _

theorem waterTankStep_eq (ring : List (ℚ × ℚ)) (elements : List Element)
    (topography : List TopoSample) (now : ℚ)
    (hbhp : filterPointsInBoundary (findHighPoints topography 20) (.geo ring) ≠ [])
    (hno : elements.any (fun x => x.etype == "WATER_TANK") = false) :
    ∃ p ∈ filterPointsInBoundary (findHighPoints topography 20) (.geo ring),
      (∀ q ∈ filterPointsInBoundary (findHighPoints topography 20) (.geo ring),
        q.elevation ≤ p.elevation) ∧
      waterTankStep ring elements topography now
        = [{ etype := "WATER_TANK", name := "Water Tank", id := now + 1,
             position := some (p.lat, p.lng) }] := by
  set bhp := filterPointsInBoundary (findHighPoints topography 20) (.geo ring) with hbhpdef
  refine ⟨bhp.foldl (fun highest point =>
      if point.elevation > highest.elevation then point else highest) bhp.headI,
    ?_, ?_, ?_⟩
  · rcases (foldl_maxsel bhp bhp.headI).1 with hEq | hin
    · rw [hEq]; exact headI_mem_of_ne_nil hbhp
    · exact hin
  · exact (foldl_maxsel bhp bhp.headI).2.2
  · have hcnd : (decide (bhp.length > 0)
        && !(elements.any fun e => e.etype == "WATER_TANK")) = true := by
      simp only [hno, Bool.not_false, Bool.and_true, decide_eq_true_eq]
      exact List.length_pos.mpr hbhp
    simp only [waterTankStep]
    rw [← hbhpdef, if_pos hcnd]

theorem filter_nil_of_types (l : List Element) (T : String)
    (hT : ∀ e ∈ l, e.etype = T) (hne : (T == "WATER_TANK") = false) :
    l.filter (fun e => e.etype == "WATER_TANK") = [] := by
  apply List.filter_eq_nil_iff.mpr
  intro e he
  rw [hT e he]
  simp [hne]

/-- C2 (amended): when the top-20 highest topography samples filtered to the
boundary interior are non-empty and no Water Tank is present, one synthesis
run emits exactly one Water Tank, positioned at a maximum-elevation point of
that interior-filtered top-20 set (the claim's "global interior maximum over
all interior samples" fails when all 20 highest samples lie outside the
boundary — see the counterexample, where no tank is placed at all). -/
theorem autoDesign_waterTank (M : HostMath) (rho : ℕ → ℕ → ℚ × ℚ) (zrnd : ℕ → ℚ)
    (ring : List (ℚ × ℚ)) (elements : List Element) (topography : List TopoSample)
    (demData : List Sample) (marker : ℚ × ℚ) (windDirection now : ℚ)
    (hbhp : filterPointsInBoundary (findHighPoints topography 20) (.geo ring) ≠ [])
    (hno : ∀ e ∈ elements, e.etype ≠ "WATER_TANK") :
    ∃ p ∈ filterPointsInBoundary (findHighPoints topography 20) (.geo ring),
      (∀ q ∈ filterPointsInBoundary (findHighPoints topography 20) (.geo ring),
        q.elevation ≤ p.elevation) ∧
      (autoDesignLayout M rho zrnd ring elements topography demData marker
          windDirection now).filter (fun e => e.etype == "WATER_TANK")
        = [{ etype := "WATER_TANK", name := "Water Tank", id := now + 1,
             position := some (p.lat, p.lng) }] := by
  have hnoB : elements.any (fun x => x.etype == "WATER_TANK") = false := by
    rw [List.any_eq_false]
    intro x hx
    simpa using hno x hx
  obtain ⟨p, hp, hmax, heq⟩ := waterTankStep_eq ring elements topography now hbhp hnoB
  refine ⟨p, hp, hmax, ?_⟩
  have h0 : elements.filter (fun e => e.etype == "WATER_TANK") = [] := by
    apply List.filter_eq_nil_iff.mpr
    intro e he
    simpa using hno e he
  have hsplit : ∃ l1 l2 : List Element,
      autoDesignNewParts M rho zrnd ring elements topography demData marker
          windDirection now
        = l1 ++ (waterTankStep ring elements topography now ++ l2) ∧
      l1.filter (fun e => e.etype == "WATER_TANK") = [] ∧
      l2.filter (fun e => e.etype == "WATER_TANK") = [] := by
    refine ⟨_, _, rfl, ?_, ?_⟩
    · exact filter_nil_of_types _ _ (fun e he => (houseStep_mem he).1) rfl
    · apply List.filter_eq_nil_iff.mpr
      intro e he
      simp only [autoDesignRest, List.append_assoc, List.mem_append] at he
      rcases he with h | h | h | h | h | h | h | h | h | h
      · rw [(pondStep_mem h).1]; simp
      · rw [(offsetStep_mem h).1]; simp
      · rw [(offsetStep_mem h).1]; simp
      · rw [(offsetStep_mem h).1]; simp
      · rw [(offsetStep_mem h).1]; simp
      · rw [(swaleStep_mem h).1]; simp
      · rw [(windbreakStep_mem h).1]; simp
      · rw [(zoneOne_mem h).1]; simp
      · rw [(zoneOne_mem h).1]; simp
      · rw [(zoneOne_mem h).1]; simp
  obtain ⟨l1, l2, hdec, hl1, hl2⟩ := hsplit
  have hAll : autoDesignLayout M rho zrnd ring elements topography demData marker
      windDirection now
      = elements ++ (l1 ++ (waterTankStep ring elements topography now ++ l2)) :=
    congrArg (fun l => elements ++ l) hdec
  rw [hAll, List.filter_append, List.filter_append, List.filter_append, h0, hl1, hl2,
    heq]
  simp

/-- One placed house used in concrete scenarios. -/
def houseEl : Element :=
  { etype := "HOUSE", name := "House", id := 1, position := some (1 / 2, 1 / 2) }

set_option maxRecDepth 8000 in
/-- Witness for C5: with a house already placed, a run returns the old list
plus appended parts, and the concrete first appended element (the compost at
a fixed offset from the house) is not another HOUSE. -/
theorem autoDesign_appends_and_idempotent_witness :
    ([houseEl].any fun x => x.etype == "HOUSE") = true ∧
    autoDesignLayout hostZero rhoHalf rnd0 ringUnitSq [houseEl] [] [] (1 / 2, 1 / 2) 0 0
      = [houseEl] ++ autoDesignNewParts hostZero rhoHalf rnd0 ringUnitSq [houseEl] [] []
          (1 / 2, 1 / 2) 0 0 ∧
    ({ etype := "COMPOST", name := "Compost", id := 3,
        position := some (5003 / 10000, 5002 / 10000) } : Element)
        ∈ autoDesignNewParts hostZero rhoHalf rnd0 ringUnitSq [houseEl] [] []
          (1 / 2, 1 / 2) 0 0 ∧
    ({ etype := "COMPOST", name := "Compost", id := 3,
        position := some (5003 / 10000, 5002 / 10000) } : Element).etype ≠ "HOUSE" := by
  have h := autoDesign_appends_and_idempotent hostZero rhoHalf rnd0 ringUnitSq [houseEl]
    [] [] (1 / 2, 1 / 2) 0 0 "HOUSE" (by decide)
  have hm : ({ etype := "COMPOST", name := "Compost", id := 3,
               position := some (5003 / 10000, 5002 / 10000) } : Element)
      ∈ autoDesignNewParts hostZero rhoHalf rnd0 ringUnitSq [houseEl] [] []
        (1 / 2, 1 / 2) 0 0 := by
    decide
  exact ⟨by decide, h.1, hm, h.2 _ hm⟩

/-- A single topography sample inside the unit square. -/
def topoOne : List TopoSample := [⟨1 / 2, 1 / 2, 50, 0, 0⟩]

set_option maxRecDepth 8000 in
/-- Witness for C2: with one interior topography sample and no tank placed,
synthesis emits exactly one Water Tank at that sample's coordinates. -/
theorem autoDesign_waterTank_witness :
    filterPointsInBoundary (findHighPoints topoOne 20) (.geo ringUnitSq) ≠ [] ∧
    (autoDesignLayout hostZero rhoHalf rnd0 ringUnitSq [] topoOne [] (1 / 2, 1 / 2)
        0 0).filter (fun e => e.etype == "WATER_TANK")
      = [{ etype := "WATER_TANK", name := "Water Tank", id := 1,
            position := some (1 / 2, 1 / 2) }] := by
  obtain ⟨p, hp, hmax, heq⟩ := autoDesign_waterTank hostZero rhoHalf rnd0 ringUnitSq []
    topoOne [] (1 / 2, 1 / 2) 0 0 (by decide) (by simp)
  refine ⟨by decide, ?_⟩
  have hp' : p = ⟨1 / 2, 1 / 2, 50, 0, 0⟩ := by
    rw [show filterPointsInBoundary (findHighPoints topoOne 20) (.geo ringUnitSq)
        = [⟨1 / 2, 1 / 2, 50, 0, 0⟩] from by decide] at hp
    simpa using hp
  rw [heq, hp']
  decide

/-- Twenty high samples far outside the unit square plus one interior sample
of lower elevation. -/
def topoFar : List TopoSample :=
  [⟨50, 50, 101, 0, 0⟩,
   ⟨51, 50, 102, 0, 0⟩,
   ⟨52, 50, 103, 0, 0⟩,
   ⟨53, 50, 104, 0, 0⟩,
   ⟨54, 50, 105, 0, 0⟩,
   ⟨55, 50, 106, 0, 0⟩,
   ⟨56, 50, 107, 0, 0⟩,
   ⟨57, 50, 108, 0, 0⟩,
   ⟨58, 50, 109, 0, 0⟩,
   ⟨59, 50, 110, 0, 0⟩,
   ⟨60, 50, 111, 0, 0⟩,
   ⟨61, 50, 112, 0, 0⟩,
   ⟨62, 50, 113, 0, 0⟩,
   ⟨63, 50, 114, 0, 0⟩,
   ⟨64, 50, 115, 0, 0⟩,
   ⟨65, 50, 116, 0, 0⟩,
   ⟨66, 50, 117, 0, 0⟩,
   ⟨67, 50, 118, 0, 0⟩,
   ⟨68, 50, 119, 0, 0⟩,
   ⟨69, 50, 120, 0, 0⟩,
   ⟨1 / 2, 1 / 2, 50, 0, 0⟩]

set_option maxRecDepth 8000 in
/-- Counterexample for C2: the interior sample exists (and lies inside the
boundary), no tank is present, yet synthesis places NO Water Tank, because
the interior filter is applied only to the 20 highest samples, which all lie
outside the boundary. -/
theorem autoDesign_waterTank_flaw :
    (⟨1 / 2, 1 / 2, 50, 0, 0⟩ : TopoSample) ∈ topoFar ∧
    pointInPolygon (1 / 2) (1 / 2) ringUnitSq = true ∧
    (autoDesignLayout hostZero rhoHalf rnd0 ringUnitSq [] topoFar [] (1 / 2, 1 / 2)
        0 0).filter (fun e => e.etype == "WATER_TANK") = [] := by
  exact ⟨by decide, by decide,
    by decide⟩

/-- A placed house inside `ringShifted`, used by the drag scenario. -/
def housePlaced : Element :=
  { etype := "HOUSE", name := "House", id := 1, position := some (21 / 2, 1 / 2) }

set_option maxRecDepth 8000 in
/-- C1 (code bug): (a) `onMapClick` accepts a placement at a point far
outside the boundary — its containment check converts the ring to a plain
`[lat, lng]` array, which has no `.geometry` field, so `isPointInBoundary`
returns true unconditionally; (b) `onElementDrag` accepts a drag to a point
outside the boundary — it passes `[lng, lat]` where the callee expects
`[lat, lng]`, so it tests the coordinate-swapped point.  In both cases the
mutation is applied even though the target point fails `pointInPolygon`. -/
theorem placement_containment_flaw :
    pointInPolygon 5 5 ringUnitSq = false ∧
    onMapClick hostZero (some "HOUSE") (some ringUnitSq) [] 0 5 5
      = [{ etype := "HOUSE", name := "House", id := 0, position := some (5, 5) }] ∧
    pointInPolygon (21 / 2) (1 / 2) ringShifted = false ∧
    onElementDrag (some ringShifted) [housePlaced] 1 (1 / 2) (21 / 2)
      = [{ etype := "HOUSE", name := "House", id := 1,
            position := some (1 / 2, 21 / 2) }] := by
  exact ⟨by decide, by decide,
    by decide, by decide⟩
